import Mathlib

/-
Verification development for the dvc repository slice consisting of
dvc/system.py (the LinkOps platform layer) and
dvc/repo/experiments/init.py (the experiment stage initialization flow).

The filesystem is embedded as an explicit state: a directory is a finite
association of paths to entries, where an entry is either a regular file
referencing an inode number or a symbolic link carrying its own inode
number and a target path; inodes map to a record of content bytes and
permission mode bits.  A real directory maps each path to at most one
entry, so removal of a path removes every association it has.  The OS
primitives the Python code calls (os.link, os.lstat, os.stat, os.unlink,
os.chmod, open, ioctl FICLONE, clonefile) are modelled as explicit state
transitions on this structure, with the outcome of the platform clone
primitives (which depend on kernel and filesystem support outside the
program) supplied by an oracle environment.
-/

set_option autoImplicit false

namespace DvcSpec

/-- Errno value used by the model for a missing path (POSIX ENOENT). -/
def ENOENT : Nat := 2

/-- Errno value used by the model for an already existing path (POSIX EEXIST). -/
def EEXIST : Nat := 17

/-- Errno value used by the model for a symlink resolution loop (POSIX ELOOP). -/
def ELOOP : Nat := 40

/-- Errno value used by the model for an unsupported operation (errno.ENOTSUP). -/
def ENOTSUP : Nat := 95

/-- Model of a Python OSError: the carried OS error code.  The message string
is derived from the code by os.strerror and carries no extra information, so
the model keeps only the code. -/
structure OSError where
  errno : Nat
deriving DecidableEq, Repr

/-- A storage object: content bytes and permission mode bits. -/
structure Inode where
  content : List Nat
  mode : Nat
deriving DecidableEq, Repr

/-- A directory entry: a regular file referencing an inode, or a symbolic
link with its own inode number and a target path. -/
inductive Entry where
  | file (ino : Nat)
  | symlink (ino : Nat) (target : String)
deriving DecidableEq, Repr

/-- Filesystem state: path entries, the inode table, and the next fresh
inode number handed out on file creation. -/
structure FS where
  entries : List (String × Entry)
  inodes : List (Nat × Inode)
  nextIno : Nat
deriving DecidableEq, Repr

namespace FS

/-- The entry a path names, if any. -/
def lookupEntry (fs : FS) (p : String) : Option Entry :=
  fs.entries.lookup p

/-- Whether a path has a directory entry of its own (no symlink following,
as in os.path.lexists). -/
def pathExists (fs : FS) (p : String) : Bool :=
  (fs.lookupEntry p).isSome

/-- The inode record for an inode number, if present in the table. -/
def getInode (fs : FS) (i : Nat) : Option Inode :=
  fs.inodes.lookup i

/-- Resolve a path to the inode number of the file it denotes, following
symbolic links, with explicit fuel bounding the chain length; exhausted
fuel reports ELOOP as the kernel does on a symlink cycle. -/
def resolveIno (fs : FS) : Nat → String → Except OSError Nat
  | 0, _ => .error ⟨ELOOP⟩
  | fuel + 1, p =>
    match fs.lookupEntry p with
    | none => .error ⟨ENOENT⟩
    | some (.file i) => .ok i
    | some (.symlink _ t) => fs.resolveIno fuel t

/-- Fuel sufficient for any acyclic symlink chain in the state: one more
than the number of directory entries. -/
def fuel (fs : FS) : Nat :=
  fs.entries.length + 1

/-- The link count of an inode: how many directory entries of regular files
reference it (symlink entries carry their own inode numbers and do not
contribute).  This is the st_nlink field of a stat result. -/
def nlink (fs : FS) (i : Nat) : Nat :=
  (fs.entries.filter fun pe =>
    match pe.2 with
    | .file j => j == i
    | .symlink _ _ => false).length

/-- Content of the file a path resolves to, following symlinks. -/
def contentAt (fs : FS) (p : String) : Option (List Nat) :=
  match fs.resolveIno fs.fuel p with
  | .error _ => none
  | .ok i => (fs.getInode i).map Inode.content

/-- Mode bits of the file a path resolves to, following symlinks. -/
def modeAt (fs : FS) (p : String) : Option Nat :=
  match fs.resolveIno fs.fuel p with
  | .error _ => none
  | .ok i => (fs.getInode i).map Inode.mode

/-- Replace the content of an inode, leaving directory entries untouched. -/
def setContent (fs : FS) (i : Nat) (c : List Nat) : FS :=
  match fs.getInode i with
  | none => fs
  | some nd => { fs with inodes := (i, { nd with content := c }) :: fs.inodes }

end FS

namespace Os

/-- Model of os.link(source, link_name): fails with EEXIST when the target
path already has an entry, with ENOENT when the source is missing;
otherwise adds a new directory entry referencing the inode of the source
(following a source symlink, as CPython requests by default).  The state is
returned unchanged alongside the error on failure. -/
def link (fs : FS) (src dst : String) : FS × Option OSError :=
  if fs.pathExists dst then (fs, some ⟨EEXIST⟩)
  else
    match fs.lookupEntry src with
    | none => (fs, some ⟨ENOENT⟩)
    | some (.file i) => ({ fs with entries := (dst, .file i) :: fs.entries }, none)
    | some (.symlink _ t) =>
      match fs.resolveIno fs.fuel t with
      | .error e => (fs, some e)
      | .ok i => ({ fs with entries := (dst, .file i) :: fs.entries }, none)

/-- Model of os.unlink(path): removes the directory entry the path names
(not following a terminal symlink); ENOENT when there is none.  A path
names at most one entry in a real directory, so removal filters the path
out of the association list. -/
def unlink (fs : FS) (p : String) : FS × Option OSError :=
  if fs.pathExists p then
    ({ fs with entries := fs.entries.filter fun pe => pe.1 != p }, none)
  else (fs, some ⟨ENOENT⟩)

/-- Model of os.lstat(path).st_ino: the inode number of the entry the path
itself names, without following a terminal symlink; FileNotFoundError
(an OSError with ENOENT) when the path has no entry. -/
def lstatIno (fs : FS) (p : String) : Except OSError Nat :=
  match fs.lookupEntry p with
  | none => .error ⟨ENOENT⟩
  | some (.file i) => .ok i
  | some (.symlink i _) => .ok i

/-- Model of os.chmod(path, mode): resolves the path (following symlinks)
and replaces the mode bits of the resolved inode. -/
def chmod (fs : FS) (p : String) (m : Nat) : FS × Option OSError :=
  match fs.resolveIno fs.fuel p with
  | .error e => (fs, some e)
  | .ok i =>
    match fs.getInode i with
    | none => (fs, some ⟨ENOENT⟩)
    | some nd => ({ fs with inodes := (i, { nd with mode := m }) :: fs.inodes }, none)

end Os

namespace FS

/-- The cleanup step of the Linux reflink path: os.unlink wrapped in
suppress(OSError), so a deletion failure is discarded and the state is
whatever the attempted deletion left (unchanged when deletion failed). -/
def unlinkSuppress (fs : FS) (p : String) : FS :=
  (Os.unlink fs p).1

/-- Model of open(path, mode="rb"): resolve the path following symlinks and
hand back the inode number and record of the opened file; FileNotFoundError
when resolution fails or the inode is absent from the table. -/
def openRead (fs : FS) (p : String) : Except OSError (Nat × Inode) :=
  match fs.resolveIno fs.fuel p with
  | .error e => .error e
  | .ok i =>
    match fs.getInode i with
    | none => .error ⟨ENOENT⟩
    | some nd => .ok (i, nd)

/-- Model of open(path, mode="wb+"): following symlinks, either truncate the
existing file or create a fresh one at the missing final path with creation
mode cm (0o666 masked by the process umask, as O_CREAT applies it); returns
the updated state and the inode number of the opened file. -/
def openWriteTrunc (fs : FS) (cm : Nat) : Nat → String → Except OSError (FS × Nat)
  | 0, _ => .error ⟨ELOOP⟩
  | fuel + 1, p =>
    match fs.lookupEntry p with
    | none =>
      let i := fs.nextIno
      .ok ({ entries := (p, .file i) :: fs.entries,
             inodes := (i, ⟨[], cm⟩) :: fs.inodes,
             nextIno := i + 1 }, i)
    | some (.file i) =>
      match fs.getInode i with
      | none => .error ⟨ENOENT⟩
      | some nd => .ok ({ fs with inodes := (i, { nd with content := [] }) :: fs.inodes }, i)
    | some (.symlink _ t) => fs.openWriteTrunc cm fuel t

end FS

/-- The permission bits a successful reflink installs on the target:
0o666 masked by the complement of the process umask.  Only the low nine
permission bits of the umask can affect a value bounded by 0o666, so the
complement is taken within the 0o777 field; for every natural umask this
equals the Python expression with arbitrary precision complement. -/
def reflinkMode (umask : Nat) : Nat :=
  0o666 &&& (0o777 ^^^ (umask &&& 0o777))

/-- Model of os.fsencode(path): the UTF-8 bytes of the path string. -/
def fsencode (p : String) : List Nat :=
  p.toUTF8.toList.map (fun b => b.toNat)

/-- Oracle for the Linux FICLONE ioctl, standing for kernel and filesystem
support outside the program: whether the clone request on the two open
descriptors succeeds, and the errno reported when it does not. -/
structure LinuxEnv where
  cloneOk : Bool
  cloneErrno : Nat

/-- A dynamically loaded C library handle: the clonefile entry point is
present or absent; when present it maps byte-encoded source and target
paths and a flags word to the return code of the native call. -/
structure DyLib where
  clonefileImpl : Option (List Nat → List Nat → Int → Int)

/-- Oracle for the Darwin dynamic loading machinery: what ctypes.CDLL
yields for each library name, and the thread errno value read by
ctypes.get_errno after a failed native call. -/
structure DarwinEnv where
  loadLib : String → Except OSError DyLib
  lastErrno : Nat

/-- Primary name of the C runtime library on the Darwin path. -/
def LIBC : String := "libc.dylib"

/-- Fallback system library path used when the primary name is not found,
bypassing System Integrity Protection restrictions. -/
def LIBC_FALLBACK : String := "/usr/lib/libSystem.dylib"

/-- The library resolution step of the Darwin path: load the primary name;
when that fails with ENOENT fall back to the known system library path;
any other load error is re-raised. -/
def darwinResolveLib (env : DarwinEnv) : Except OSError DyLib :=
  match env.loadLib LIBC with
  | .ok clib => .ok clib
  | .error exc =>
    if exc.errno != ENOENT then .error exc
    else env.loadLib LIBC_FALLBACK

/-- Filesystem effect of a successful clonefile call: the target receives a
fresh inode whose content and mode are copied from the source (the clone
shares storage until a write, which is not observable at this level);
nothing changes when the source does not resolve or the target already
exists, cases in which the real call cannot have returned success. -/
def FS.cloneAt (fs : FS) (src dst : String) : FS :=
  match fs.openRead src with
  | .error _ => fs
  | .ok (_, nd) =>
    if fs.pathExists dst then fs
    else
      { entries := (dst, .file fs.nextIno) :: fs.entries,
        inodes := (fs.nextIno, nd) :: fs.inodes,
        nextIno := fs.nextIno + 1 }

namespace DvcSys

/-- Model of System.hardlink: a direct call to os.link. -/
def hardlink (fs : FS) (source link_name : String) : FS × Option OSError :=
  Os.link fs source link_name

/-- Model of System.inode: os.lstat(path).st_ino. -/
def inode (fs : FS) (path : String) : Except OSError Nat :=
  Os.lstatIno fs path

/-- Model of System.is_symlink: os.path.islink(path), which performs an
lstat, returns False when it raises OSError (missing path), and otherwise
tests the link bit of the entry; a total Boolean function. -/
def is_symlink (fs : FS) (path : String) : Bool :=
  match fs.lookupEntry path with
  | some (.symlink _ _) => true
  | _ => false

/-- Model of System.is_hardlink: os.stat(path).st_nlink is greater than 1,
where stat follows symbolic links and raises for a missing path. -/
def is_hardlink (fs : FS) (path : String) : Except OSError Bool :=
  (fs.resolveIno fs.fuel path).map (fun i => decide (fs.nlink i > 1))

/-- Model of System._reflink_linux: open src with mode rb and dst with mode
wb+ in that order, issue the FICLONE ioctl on the destination descriptor
passing the source descriptor; on any OSError from that block, unlink dst
with the deletion error suppressed and re-raise the original error.  The
env oracle decides the ioctl outcome; umask supplies the creation mode of
the destination open. -/
def reflink_linux (env : LinuxEnv) (umask : Nat) (fs : FS) (src dst : String) :
    FS × Option OSError :=
  match fs.openRead src with
  | .error e => (FS.unlinkSuppress fs dst, some e)
  | .ok (_, snd) =>
    match fs.openWriteTrunc (reflinkMode umask) fs.fuel dst with
    | .error e => (FS.unlinkSuppress fs dst, some e)
    | .ok (fs1, dIno) =>
      if env.cloneOk then (fs1.setContent dIno snd.content, none)
      else (FS.unlinkSuppress fs1 dst, some ⟨env.cloneErrno⟩)

/-- Model of System._reflink_darwin: resolve the C library handle with the
ENOENT fallback, fail with ENOTSUP when the handle lacks a clonefile entry
point, call clonefile with the byte-encoded paths and zero flags, and on a
nonzero return raise an OSError carrying the thread errno. -/
def reflink_darwin (env : DarwinEnv) (fs : FS) (src dst : String) :
    FS × Option OSError :=
  match darwinResolveLib env with
  | .error e => (fs, some e)
  | .ok clib =>
    match clib.clonefileImpl with
    | none => (fs, some ⟨ENOTSUP⟩)
    | some clonefile =>
      let ret := clonefile (fsencode src) (fsencode dst) 0
      if ret != 0 then (fs, some ⟨env.lastErrno⟩)
      else (fs.cloneAt src dst, none)

/-- The final step of System.reflink: when the platform branch succeeded,
chmod the target to 0o666 masked by the process umask, because the clone
carries the mode bits of the source and the caller expects the target to
look like a fresh copy; a branch error propagates unchanged. -/
def afterClone (r : FS × Option OSError) (dst : String) (umask : Nat) :
    FS × Option OSError :=
  match r with
  | (fs, some e) => (fs, some e)
  | (fs, none) => Os.chmod fs dst (reflinkMode umask)

/-- Model of System.reflink: os.fspath conversion of both arguments is the
identity on string paths; dispatch on platform.system(), raising OSError
with ENOTSUP on any platform other than Darwin and Linux before touching
the filesystem; on branch success normalize the target mode bits. -/
def reflink (sys : String) (umask : Nat) (lenv : LinuxEnv) (denv : DarwinEnv)
    (fs : FS) (source link_name : String) : FS × Option OSError :=
  if sys == "Darwin" then
    afterClone (reflink_darwin denv fs source link_name) link_name umask
  else if sys == "Linux" then
    afterClone (reflink_linux lenv umask fs source link_name) link_name umask
  else (fs, some ⟨ENOTSUP⟩)

end DvcSys

/-
Model of dvc/repo/experiments/init.py.  The function init drives external
collaborators (the dvcfile object, rich prompts, repo.stage.create, the
stage dump and ignore steps, the ui confirm dialog); the model records
those interactions as an event trace and takes their answers from an
environment record.  The pipeline file dvc.yaml is abstracted as the list
of stage names it holds, extended exactly by the stage dump step.
-/

/-- Observable side effects of a run of init, in order. -/
inductive InitEvent where
  | prompted
  | stageCreated
  | yamlShown
  | dumped
  | ignoredOuts
deriving DecidableEq, Repr

/-- Exceptions a run of init can surface. -/
inductive InitError where
  | duplicateStageName
  | keyError (k : String)
  | assertionError
  | dvcAbort
deriving DecidableEq, Repr

/-- A Python dict of string options, as an association list; the first
binding of a key is its value. -/
abbrev Dict : Type := List (String × String)

/-- Model of dict.pop(k) with no default: remove the key or raise KeyError
when it is absent. -/
def dictPop (d : Dict) (k : String) : Except InitError Dict :=
  match List.lookup k d with
  | some _ => .ok (List.filter (fun kv => kv.1 != k) d)
  | none => .error (.keyError k)

/-- Model of the Python merge expression placing d first and o second in a
dict display, so bindings of o win: lookups consult o before d. -/
def mergeDict (d o : Dict) : Dict :=
  o ++ d

/-- Environment of a run of init: what the dvcfile collaborator reports,
what the user answers to each named prompt (absent means the skip answer),
the answer to the final confirm dialog, and the stage names currently in
the pipeline file. -/
structure InitEnv where
  dvcfileExists : Bool
  dvcfileStages : List String
  promptAnswers : List (String × String)
  confirmAnswer : Bool
  pipelineFile : List String

/-- Outcome of a run of init: the event trace, the exception surfaced if
any, and the resulting pipeline file contents. -/
structure InitResult where
  events : List InitEvent
  error : Option InitError
  pipelineFile : List String
deriving DecidableEq, Repr

/-- Model of _check_stage_exists(dvcfile, name, force): raises
DuplicateStageName when force is off, the pipeline file exists and already
holds a stage of that name; the conjunction short-circuits, so with force
on the dvcfile is never consulted. -/
def check_stage_exists (env : InitEnv) (name : String) (force : Bool) :
    Except InitError Unit :=
  if !force && (env.dvcfileExists && decide (name ∈ env.dvcfileStages)) then
    .error .duplicateStageName
  else .ok ()

/-- Model of init_interactive: the primary keys are the five main option
names not already provided, the secondary keys depend on the live flag;
when nothing is left to ask the function returns an empty dict without
prompting, otherwise it prompts for each remaining key in order and keeps
the non-skipped answers (compact drops skipped ones). -/
def init_interactive (env : InitEnv) (live : Bool) (provided : Dict) :
    List InitEvent × Dict :=
  let primary := List.filter (fun k => (List.lookup k provided).isNone)
    ["cmd", "code", "data", "models", "params"]
  let secondary := List.filter (fun k => (List.lookup k provided).isNone)
    (if live then ["live"] else ["metrics", "plots"])
  if primary.isEmpty && secondary.isEmpty then ([], [])
  else
    ((primary ++ secondary).map (fun _ => .prompted),
     (primary ++ secondary).filterMap
       (fun k => (List.lookup k env.promptAnswers).map (fun v => (k, v))))

/-- Model of the name defaulting at the top of init: a falsy name argument
(absent or the empty string) is replaced by the stage type. -/
def effectiveName (name : Option String) (type : String) : String :=
  match name with
  | none => type
  | some n => if n == "" then type else n

/-- Body of init after the duplicate check passed.  The defaults dict is
produced by the interactive wizard or by popping the keys the stage type
suppresses
(dict.pop raising KeyError when absent, as in the source); the merged
context must contain cmd (the assert); the stage is created, shown as yaml
in interactive mode, and dumped plus its outputs ignored either directly
in non-interactive mode or after the user confirms, a declined confirm
raising DvcException before any dump.  Stage creation itself and the
params file loading are external collaborators assumed to succeed; their
own failure modes are outside this model. -/
def initBody (env : InitEnv) (name : String) (type : String)
    (defaults overrides : Dict) (interactive : Bool) : InitResult :=
    let with_live := type == "live"
    let step : List InitEvent × Except InitError Dict :=
      if interactive then
        let r := init_interactive env with_live overrides
        (r.1, .ok r.2)
      else if with_live then
        ([], (dictPop defaults "metrics").bind (fun d => dictPop d "params"))
      else
        ([], dictPop defaults "live")
    match step with
    | (evs, .error e) => ⟨evs, some e, env.pipelineFile⟩
    | (evs, .ok defaults1) =>
      let context := mergeDict defaults1 overrides
      if (List.lookup "cmd" context).isNone then
        ⟨evs, some .assertionError, env.pipelineFile⟩
      else
        let evs1 := evs ++ [.stageCreated]
        let evs2 := if interactive then evs1 ++ [.yamlShown] else evs1
        if !interactive || env.confirmAnswer then
          ⟨evs2 ++ [.dumped, .ignoredOuts], none, env.pipelineFile ++ [name]⟩
        else
          ⟨evs2, some .dvcAbort, env.pipelineFile⟩

/-- Model of init(repo, name, type, defaults, overrides, interactive,
force): default the falsy name to the stage type, run the duplicate check,
then the body above. -/
def init (env : InitEnv) (name : Option String) (type : String)
    (defaults overrides : Dict) (interactive force : Bool) : InitResult :=
  match check_stage_exists env (effectiveName name type) force with
  | .error e => ⟨[], some e, env.pipelineFile⟩
  | .ok _ =>
    initBody env (effectiveName name type) type defaults overrides interactive

/-
Sample states used by the concrete instantiations below: a filesystem with
one regular file at path a (inode 0, two content bytes, mode 0o755) and a
symlink at path ln (own inode 5) pointing at a; an init environment whose
pipeline file holds one stage named train.
-/

/-- Sample filesystem state for concrete instantiations. -/
def sampleFS : FS :=
  ⟨[("a", .file 0), ("ln", .symlink 5 "a")], [(0, ⟨[104, 105], 0o755⟩)], 6⟩

/-- The state left by opening the missing path b on sampleFS with creation
mode 0o666 (umask zero): a fresh file entry at b with inode 6. -/
def sampleFS1 : FS :=
  ⟨[("b", .file 6), ("a", .file 0), ("ln", .symlink 5 "a")],
   [(6, ⟨[], 0o666⟩), (0, ⟨[104, 105], 0o755⟩)], 7⟩

/-- Sample init environment: the dvcfile exists with one stage train, the
user answers cmd prompts with a command and declines the confirm dialog. -/
def sampleEnv : InitEnv :=
  ⟨true, ["train"], [("cmd", "python train.py")], false, ["train"]⟩

/-- A Darwin loading environment in which every library resolves to a
handle lacking the clonefile entry point. -/
def denvNoClone : DarwinEnv :=
  ⟨fun _ => .ok ⟨none⟩, 7⟩

/-
Helper lemmas shared by the claim theorems.
-/

/-- Looking up a key in a list from which every pair with that key was
filtered out finds nothing. -/
theorem lookup_filter_ne {β : Type} (l : List (String × β)) (p : String) :
    (l.filter fun pe => pe.1 != p).lookup p = none := by
  induction l with
  | nil => rfl
  | cons hd tl ih =>
    obtain ⟨k, v⟩ := hd
    rw [List.filter_cons]
    by_cases h : k = p
    · rw [show (((k, v) : String × β).1 != p) = false from by simp [h]]
      simpa using ih
    · rw [show (((k, v) : String × β).1 != p) = true from by simp [h]]
      simp only [if_true]
      simp only [List.lookup]
      rw [show (p == k) = false from beq_eq_false_iff_ne.mpr (Ne.symm h)]
      exact ih

/-- After a suppressed unlink of a path, the path has no entry: either the
deletion removed its entry or there was none to begin with. -/
theorem unlinkSuppress_pathExists (fs : FS) (p : String) :
    (FS.unlinkSuppress fs p).pathExists p = false := by
  unfold FS.unlinkSuppress Os.unlink
  by_cases h : fs.pathExists p = true
  · simp only [h, if_true]
    simp [FS.pathExists, FS.lookupEntry, lookup_filter_ne]
  · simp only [Bool.not_eq_true] at h
    simp [h]

/-- Path resolution reads only the directory entries, so states sharing
entries resolve alike. -/
theorem resolveIno_congr (fs1 fs2 : FS) (h : fs1.entries = fs2.entries) :
    ∀ (n : Nat) (p : String), fs1.resolveIno n p = fs2.resolveIno n p := by
  intro n
  induction n with
  | zero => intro p; rfl
  | succ m ih =>
    intro p
    unfold FS.resolveIno
    rw [show fs1.lookupEntry p = fs2.lookupEntry p from by
      unfold FS.lookupEntry; rw [h]]
    cases fs2.lookupEntry p with
    | none => rfl
    | some e => cases e with
      | file i => rfl
      | symlink i t => exact ih t

/-- Resolution and mode readout on a state that only prepends an inode
binding for the resolved inode: the path now reads back the new mode. -/
theorem modeAt_update (fs : FS) (p : String) (i : Nat) (nd : Inode) (m : Nat)
    (hres : fs.resolveIno fs.fuel p = .ok i) :
    FS.modeAt { fs with inodes := (i, { nd with mode := m }) :: fs.inodes } p
      = some m := by
  unfold FS.modeAt
  have hr : FS.resolveIno { fs with inodes := (i, { nd with mode := m }) :: fs.inodes }
      (FS.fuel { fs with inodes := (i, { nd with mode := m }) :: fs.inodes }) p
      = .ok i := by
    rw [resolveIno_congr { fs with inodes := (i, { nd with mode := m }) :: fs.inodes } fs rfl]
    exact hres
  rw [hr]
  simp [FS.getInode, List.lookup]

/-- A chmod call that returned success installed exactly the requested mode
bits on the file the path resolves to. -/
theorem chmod_modeAt (fs fs2 : FS) (p : String) (m : Nat)
    (h : Os.chmod fs p m = (fs2, none)) : fs2.modeAt p = some m := by
  unfold Os.chmod at h
  split at h
  · exact absurd (congrArg Prod.snd h) (by simp)
  · next i hres =>
    split at h
    · exact absurd (congrArg Prod.snd h) (by simp)
    · next nd hnd =>
      have hfs2 : ({ fs with inodes := (i, { nd with mode := m }) :: fs.inodes } : FS)
          = fs2 := congrArg Prod.fst h
      rw [← hfs2]
      exact modeAt_update fs p i nd m hres

/-- C1: on a platform whose identifier is neither Linux nor Darwin, reflink
fails with the Unsupported error kind and the filesystem state is returned
untouched, the platform check preceding any file operation, so no file is
created at the target. -/
theorem reflink_unsupported_platform (sys : String) (umask : Nat)
    (lenv : LinuxEnv) (denv : DarwinEnv) (fs : FS) (src dst : String)
    (hl : sys ≠ "Linux") (hd : sys ≠ "Darwin") :
    DvcSys.reflink sys umask lenv denv fs src dst = (fs, some ⟨ENOTSUP⟩) ∧
    (DvcSys.reflink sys umask lenv denv fs src dst).1.pathExists dst
      = fs.pathExists dst := by
  have h1 : (sys == "Darwin") = false := beq_eq_false_iff_ne.mpr hd
  have h2 : (sys == "Linux") = false := beq_eq_false_iff_ne.mpr hl
  constructor <;> simp [DvcSys.reflink, h1, h2]

/-- Concrete instantiation of the unsupported platform theorem on the
sample filesystem with the Windows platform identifier. -/
theorem reflink_unsupported_platform_witness :
    DvcSys.reflink "Windows" 18 ⟨true, 0⟩ denvNoClone sampleFS "a" "b"
      = (sampleFS, some ⟨ENOTSUP⟩) :=
  (reflink_unsupported_platform "Windows" 18 ⟨true, 0⟩ denvNoClone sampleFS
    "a" "b" (by decide) (by decide)).1

/-- C2: on the Linux path, when the source opened read-only and the target
opened write-create-truncate but the FICLONE ioctl failed, the partially
created target is unlinked with any deletion error suppressed, the original
ioctl error propagates unchanged, and no file remains at the target. -/
theorem reflink_linux_failure_cleanup (lenv : LinuxEnv) (umask : Nat)
    (fs : FS) (src dst : String) (sIno : Nat) (snd : Inode) (fs1 : FS) (dIno : Nat)
    (hs : fs.openRead src = .ok (sIno, snd))
    (hw : fs.openWriteTrunc (reflinkMode umask) fs.fuel dst = .ok (fs1, dIno))
    (hfail : lenv.cloneOk = false) :
    DvcSys.reflink_linux lenv umask fs src dst
      = (FS.unlinkSuppress fs1 dst, some ⟨lenv.cloneErrno⟩) ∧
    (DvcSys.reflink_linux lenv umask fs src dst).1.pathExists dst = false := by
  have hmain : DvcSys.reflink_linux lenv umask fs src dst
      = (FS.unlinkSuppress fs1 dst, some ⟨lenv.cloneErrno⟩) := by
    unfold DvcSys.reflink_linux
    rw [hs, hw, hfail]
    simp
  refine ⟨hmain, ?_⟩
  rw [hmain]
  exact unlinkSuppress_pathExists fs1 dst

/-- Concrete instantiation of the Linux failure cleanup theorem: with a
failing clone oracle on the sample filesystem, the target path b does not
exist after the failed reflink. -/
theorem reflink_linux_failure_cleanup_witness :
    (DvcSys.reflink_linux ⟨false, 5⟩ 0 sampleFS "a" "b").1.pathExists "b"
      = false :=
  (reflink_linux_failure_cleanup ⟨false, 5⟩ 0 sampleFS "a" "b" 0
    ⟨[104, 105], 0o755⟩ sampleFS1 6 rfl rfl rfl).2

/-- C3: whenever the platform clone branch and the subsequent mode reset
succeed, the target carries exactly the permission bits 0o666 masked by the
process umask, whatever the mode bits of the source were. -/
theorem reflink_sets_target_mode (sys : String) (umask : Nat)
    (lenv : LinuxEnv) (denv : DarwinEnv) (fs fs2 : FS) (src dst : String)
    (hsys : sys = "Linux" ∨ sys = "Darwin")
    (hok : DvcSys.reflink sys umask lenv denv fs src dst = (fs2, none)) :
    fs2.modeAt dst = some (reflinkMode umask) := by
  rcases hsys with h | h <;> subst h
  · have h1 : (("Linux" : String) == "Darwin") = false := by decide
    unfold DvcSys.reflink at hok
    rw [h1] at hok
    simp only [Bool.false_eq_true, if_false, beq_self_eq_true, if_true] at hok
    cases hbr : DvcSys.reflink_linux lenv umask fs src dst with
    | mk fs1 err =>
      rw [hbr] at hok
      cases err with
      | some e => simp [DvcSys.afterClone] at hok
      | none =>
        simp only [DvcSys.afterClone] at hok
        exact chmod_modeAt fs1 fs2 dst (reflinkMode umask) hok
  · unfold DvcSys.reflink at hok
    rw [show (("Darwin" : String) == "Darwin") = true from by decide] at hok
    simp only [if_true] at hok
    cases hbr : DvcSys.reflink_darwin denv fs src dst with
    | mk fs1 err =>
      rw [hbr] at hok
      cases err with
      | some e => simp [DvcSys.afterClone] at hok
      | none =>
        simp only [DvcSys.afterClone] at hok
        exact chmod_modeAt fs1 fs2 dst (reflinkMode umask) hok

/-- Concrete instantiation of the mode reset theorem: a successful Linux
reflink of the sample file (source mode 0o755) under umask 0o022 leaves
the target with mode 0o644. -/
theorem reflink_sets_target_mode_witness :
    FS.modeAt (DvcSys.reflink "Linux" 18 ⟨true, 0⟩ denvNoClone sampleFS "a" "b").1 "b"
      = some (reflinkMode 18) :=
  reflink_sets_target_mode "Linux" 18 ⟨true, 0⟩ denvNoClone sampleFS
    (DvcSys.reflink "Linux" 18 ⟨true, 0⟩ denvNoClone sampleFS "a" "b").1
    "a" "b" (Or.inl rfl) rfl

/-- C4: the Darwin path resolves the C runtime library by its primary name;
it falls back to the known system library path exactly when the primary is
not found and re-raises any other load error; a resolved library without a
clonefile entry point yields the Unsupported error; a present entry point
is invoked on the byte-encoded source and target paths with zero flags, and
a nonzero return raises an error carrying the last-error code. -/
theorem reflink_darwin_dispatch (env : DarwinEnv) (fs : FS) (src dst : String) :
    (∀ clib, env.loadLib LIBC = .ok clib → darwinResolveLib env = .ok clib) ∧
    (∀ e, env.loadLib LIBC = .error e → e.errno = ENOENT →
       darwinResolveLib env = env.loadLib LIBC_FALLBACK) ∧
    (∀ e, env.loadLib LIBC = .error e → e.errno ≠ ENOENT →
       DvcSys.reflink_darwin env fs src dst = (fs, some e)) ∧
    (∀ clib, darwinResolveLib env = .ok clib → clib.clonefileImpl = none →
       DvcSys.reflink_darwin env fs src dst = (fs, some ⟨ENOTSUP⟩)) ∧
    (∀ clib f, darwinResolveLib env = .ok clib → clib.clonefileImpl = some f →
       f (fsencode src) (fsencode dst) 0 ≠ 0 →
       DvcSys.reflink_darwin env fs src dst = (fs, some ⟨env.lastErrno⟩)) := by
  refine ⟨?_, ?_, ?_, ?_, ?_⟩
  · intro clib hload
    simp [darwinResolveLib, hload]
  · intro e hload herrno
    simp [darwinResolveLib, hload, herrno]
  · intro e hload herrno
    have hres : darwinResolveLib env = .error e := by
      simp [darwinResolveLib, hload, bne_iff_ne, herrno]
    simp [DvcSys.reflink_darwin, hres]
  · intro clib hres himpl
    simp [DvcSys.reflink_darwin, hres, himpl]
  · intro clib f hres himpl hret
    have hb : (f (fsencode src) (fsencode dst) 0 != 0) = true :=
      bne_iff_ne.mpr hret
    simp [DvcSys.reflink_darwin, hres, himpl, hb]

/-- Concrete instantiation of the Darwin dispatch theorem: an environment
whose resolved library lacks the clonefile entry point makes the Darwin
path fail with the Unsupported error code on the sample filesystem. -/
theorem reflink_darwin_dispatch_witness :
    DvcSys.reflink_darwin denvNoClone sampleFS "a" "b"
      = (sampleFS, some ⟨ENOTSUP⟩) :=
  (reflink_darwin_dispatch denvNoClone sampleFS "a" "b").2.2.2.1 ⟨none⟩ rfl rfl

/-- C5: inode reports the inode number of the directory entry the path
itself names: a missing path fails with the filesystem error, a regular
file reports its inode, a symlink reports the inode of the link entry
itself, so two distinct filesystem objects connected by a symlink report
distinct identifiers. -/
theorem inode_lstat_spec (fs : FS) (p : String) :
    (fs.lookupEntry p = none → DvcSys.inode fs p = .error ⟨ENOENT⟩) ∧
    (∀ i, fs.lookupEntry p = some (.file i) → DvcSys.inode fs p = .ok i) ∧
    (∀ i t, fs.lookupEntry p = some (.symlink i t) → DvcSys.inode fs p = .ok i) ∧
    (∀ i t j, fs.lookupEntry p = some (.symlink i t) → DvcSys.inode fs t = .ok j →
       i ≠ j → DvcSys.inode fs p ≠ DvcSys.inode fs t) := by
  refine ⟨?_, ?_, ?_, ?_⟩
  · intro h
    simp [DvcSys.inode, Os.lstatIno, h]
  · intro i h
    simp [DvcSys.inode, Os.lstatIno, h]
  · intro i t h
    simp [DvcSys.inode, Os.lstatIno, h]
  · intro i t j h ht hij
    have hp : DvcSys.inode fs p = .ok i := by
      simp [DvcSys.inode, Os.lstatIno, h]
    rw [hp, ht]
    simp [hij]

/-- Concrete instantiation of the inode theorem: on the sample filesystem,
the symlink entry ln and the file a it points at report the distinct
identifiers 5 and 0. -/
theorem inode_lstat_spec_witness :
    DvcSys.inode sampleFS "ln" ≠ DvcSys.inode sampleFS "a" :=
  (inode_lstat_spec sampleFS "ln").2.2.2 5 "a" 0 rfl rfl (by decide)

/-- C6: isHardlinked resolves the path following symlinks and reports
whether the storage object found has more than one referencing directory
entry, and it fails with the filesystem error on a missing path; a symlink
path is judged by its resolved target object. -/
theorem is_hardlink_spec (fs : FS) (p : String) :
    (fs.lookupEntry p = none → DvcSys.is_hardlink fs p = .error ⟨ENOENT⟩) ∧
    (∀ i, fs.resolveIno fs.fuel p = .ok i →
       DvcSys.is_hardlink fs p = .ok (decide (1 < fs.nlink i))) ∧
    (∀ i t, fs.lookupEntry p = some (.symlink i t) →
       DvcSys.is_hardlink fs p
         = (fs.resolveIno fs.entries.length t).map (fun j => decide (1 < fs.nlink j))) := by
  refine ⟨?_, ?_, ?_⟩
  · intro h
    have hres : fs.resolveIno fs.fuel p = .error ⟨ENOENT⟩ := by
      unfold FS.fuel
      simp [FS.resolveIno, h]
    simp [DvcSys.is_hardlink, hres, Except.map]
  · intro i hres
    simp [DvcSys.is_hardlink, hres, Except.map]
  · intro i t h
    have hres : fs.resolveIno fs.fuel p = fs.resolveIno fs.entries.length t := by
      unfold FS.fuel
      simp [FS.resolveIno, h]
    simp [DvcSys.is_hardlink, hres]

/-- Concrete instantiation of the isHardlinked theorem: the single-entry
file a of the sample filesystem is not hardlinked. -/
theorem is_hardlink_spec_witness :
    DvcSys.is_hardlink sampleFS "a" = .ok (decide (1 < sampleFS.nlink 0)) :=
  (is_hardlink_spec sampleFS "a").2.1 0 rfl

/-- C7: isSymlink is a total Boolean function, so it never raises: a
missing path reports false, a symlink entry reports true from the entry
metadata alone whether or not the target exists, and a regular file
reports false. -/
theorem is_symlink_spec (fs : FS) (p : String) :
    (fs.lookupEntry p = none → DvcSys.is_symlink fs p = false) ∧
    (∀ i t, fs.lookupEntry p = some (.symlink i t) → DvcSys.is_symlink fs p = true) ∧
    (∀ i, fs.lookupEntry p = some (.file i) → DvcSys.is_symlink fs p = false) := by
  refine ⟨?_, ?_, ?_⟩
  · intro h
    simp [DvcSys.is_symlink, h]
  · intro i t h
    simp [DvcSys.is_symlink, h]
  · intro i h
    simp [DvcSys.is_symlink, h]

/-- Concrete instantiation of the isSymlink theorem: a path absent from
the sample filesystem reports false rather than raising. -/
theorem is_symlink_spec_witness :
    DvcSys.is_symlink sampleFS "missing" = false :=
  (is_symlink_spec sampleFS "missing").1 rfl

/-- C8: hardlink to a target path that already has a directory entry fails
with an EEXIST filesystem error and returns the state unchanged, so the
content reachable from every path, in particular the source and the prior
target, is untouched. -/
theorem hardlink_existing_target (fs : FS) (src dst : String)
    (h : fs.pathExists dst = true) :
    DvcSys.hardlink fs src dst = (fs, some ⟨EEXIST⟩) ∧
    (∀ q, ((DvcSys.hardlink fs src dst).1.contentAt q) = fs.contentAt q) := by
  have hmain : DvcSys.hardlink fs src dst = (fs, some ⟨EEXIST⟩) := by
    simp [DvcSys.hardlink, Os.link, h]
  exact ⟨hmain, fun q => by rw [hmain]⟩

/-- Concrete instantiation of the hardlink theorem: linking the sample file
a onto the existing path ln fails and the content at both paths is what it
was before. -/
theorem hardlink_existing_target_witness :
    DvcSys.hardlink sampleFS "a" "ln" = (sampleFS, some ⟨EEXIST⟩) :=
  (hardlink_existing_target sampleFS "a" "ln" rfl).1

/-- Every event the interactive wizard emits is a prompt; in particular it
never dumps a stage and never ignores outputs. -/
theorem init_interactive_no_dump (env : InitEnv) (live : Bool) (o : Dict) :
    InitEvent.dumped ∉ (init_interactive env live o).1
    ∧ InitEvent.ignoredOuts ∉ (init_interactive env live o).1 := by
  constructor <;>
  · unfold init_interactive
    split <;> (dsimp only; split <;> simp)

/-- C9: with force off, init raises DuplicateStageName whenever the
pipeline file exists and already holds a stage of the requested name, with
an empty event trace, so no stage creation and no prompting happened, and
the pipeline file unchanged; with force on, the existence check is skipped
entirely: the run is insensitive to what the dvcfile collaborator reports. -/
theorem init_duplicate_stage_check (env : InitEnv) (name type : String)
    (defaults overrides : Dict) (interactive : Bool) :
    (name ≠ "" → env.dvcfileExists = true → name ∈ env.dvcfileStages →
       init env (some name) type defaults overrides interactive false
         = ⟨[], some .duplicateStageName, env.pipelineFile⟩) ∧
    (∀ b stages,
       init { env with dvcfileExists := b, dvcfileStages := stages }
           (some name) type defaults overrides interactive true
         = init env (some name) type defaults overrides interactive true) := by
  constructor
  · intro hne hex hmem
    have hname : effectiveName (some name) type = name := by
      simp [effectiveName, hne]
    have hchk : check_stage_exists env name false = .error .duplicateStageName := by
      simp [check_stage_exists, hex, hmem]
    simp [init, hname, hchk]
  · intro b stages
    rfl

/-- Concrete instantiation of the duplicate check theorem: on the sample
environment, whose pipeline file already holds stage train, init without
force aborts with an empty trace and the pipeline file untouched. -/
theorem init_duplicate_stage_check_witness :
    init sampleEnv (some "train") "default" [] [] false false
      = ⟨[], some .duplicateStageName, sampleEnv.pipelineFile⟩ :=
  (init_duplicate_stage_check sampleEnv "train" "default" [] [] false).1
    (by decide) rfl (by decide)

/-- C10: in interactive mode, once the duplicate check has passed and the
assembled context contains the command, the created stage is dumped to the
pipeline file and its outputs ignored exactly when the user confirms the
displayed yaml; a declined confirm raises the abort exception, the trace
holds no dump and no output-ignore event, and the pipeline file is left
unchanged. -/
theorem init_interactive_confirm_gate (env : InitEnv) (name : Option String)
    (type : String) (defaults overrides : Dict) (force : Bool)
    (hchk : check_stage_exists env (effectiveName name type) force = .ok ())
    (hcmd : (List.lookup "cmd"
        (mergeDict (init_interactive env (type == "live") overrides).2 overrides)).isSome
      = true) :
    (env.confirmAnswer = false →
       init env name type defaults overrides true force
         = ⟨(init_interactive env (type == "live") overrides).1
              ++ [.stageCreated, .yamlShown], some .dvcAbort, env.pipelineFile⟩
       ∧ InitEvent.dumped ∉ (init env name type defaults overrides true force).events
       ∧ InitEvent.ignoredOuts ∉ (init env name type defaults overrides true force).events
       ∧ (init env name type defaults overrides true force).pipelineFile
           = env.pipelineFile) ∧
    (env.confirmAnswer = true →
       init env name type defaults overrides true force
         = ⟨(init_interactive env (type == "live") overrides).1
              ++ [.stageCreated, .yamlShown, .dumped, .ignoredOuts], none,
            env.pipelineFile ++ [effectiveName name type]⟩) := by
  have hnone : (List.lookup "cmd"
      (mergeDict (init_interactive env (type == "live") overrides).2 overrides)).isNone
      = false := by
    cases hopt : List.lookup "cmd"
        (mergeDict (init_interactive env (type == "live") overrides).2 overrides) with
    | none => rw [hopt] at hcmd; simp at hcmd
    | some v => rfl
  have hbody : init env name type defaults overrides true force
      = initBody env (effectiveName name type) type defaults overrides true := by
    simp only [init, hchk]
  constructor
  · intro hconf
    have hrun : init env name type defaults overrides true force
        = ⟨(init_interactive env (type == "live") overrides).1
             ++ [.stageCreated, .yamlShown], some .dvcAbort, env.pipelineFile⟩ := by
      rw [hbody]
      simp only [initBody, if_true, hnone, Bool.false_eq_true, if_false, hconf,
        Bool.not_true, Bool.false_or]
      simp [List.append_assoc]
    refine ⟨hrun, ?_, ?_, ?_⟩
    · rw [hrun]
      simp only [List.mem_append]
      rintro (hin | hin)
      · exact (init_interactive_no_dump env (type == "live") overrides).1 hin
      · simp at hin
    · rw [hrun]
      simp only [List.mem_append]
      rintro (hin | hin)
      · exact (init_interactive_no_dump env (type == "live") overrides).2 hin
      · simp at hin
    · rw [hrun]
  · intro hconf
    rw [hbody]
    simp only [initBody, if_true, hnone, Bool.false_eq_true, if_false, hconf,
      Bool.not_true, Bool.false_or]
    simp [List.append_assoc]

/-- Concrete instantiation of the confirm gate theorem: with the sample
environment declining the confirm dialog, an interactive init run leaves
the pipeline file as it was. -/
theorem init_interactive_confirm_gate_witness :
    (init sampleEnv (some "x") "default" [] [("cmd", "c")] true false).pipelineFile
      = sampleEnv.pipelineFile :=
  ((init_interactive_confirm_gate sampleEnv (some "x") "default" [] [("cmd", "c")]
    false rfl rfl).1 rfl).2.2.2

end DvcSpec
